import Mathlib

/-!
Verification of the vandargo payment-gateway SDK (Go) against its
natural-language specification.

The Go sources are shallowly embedded:

* Go machine integers (`int`, `int64`, `time.Duration`) are modelled as `Int`.
  The claims only compare and increment these values far from the 64-bit
  boundary, so no wraparound modelling is needed.
* `time.Time` values are modelled as `Int` nanoseconds (Go's `UnixNano`).
* Go maps keyed by strings (`MemoryStorage.transactions`, the rate limiter's
  `clients` map) are modelled as association lists with overwrite-on-insert
  (`assocSet`) and first-match lookup (`assocGet`); a Go map holds at most one
  binding per key and the model preserves that.
* Fallible Go functions returning `error` are modelled with `Except String`
  (or an `Option` error field when the function returns a value alongside the
  error, as Go's multiple return values do).
* The JSON (un)marshalling done by the Go standard library (`json.Unmarshal`
  into typed response structs) is external to this repository; it is modelled
  as an explicitly-passed decoding function (`String → Option _`), quantified
  over in the theorems.  The external gateway's HTTP answer (`httpClient.Do`)
  is likewise an oracle value; the number of times `Do` is consulted is
  returned as a `doCalls` count.  The outbound request payload built by
  `makeRequest` is not modelled because no claim inspects it — claims only
  observe whether the network is reached.
* Logging calls (`logger.Debug/Info/Warn/Error`) are pure side effects with no
  influence on control flow in the source, and are dropped.
-/

set_option autoImplicit false

/-- Go `time.Second` expressed in the integer nanosecond units of
`time.Duration` (models `time.Duration`'s underlying `int64` of ns). -/
def timeSecond : Int := 1000000000

/-- Models `generateRequestID` (client.go): `fmt.Sprintf("%d", time.Now().UnixNano())`,
with the current time passed explicitly. -/
def generateRequestID (now : Int) : String := toString now

/-- Transaction record (models `Transaction`, models.go).  Field names follow
the Go struct; `time.Time` fields are `Int` nanoseconds. -/
structure Transaction where
  id : String
  token : String
  amount : Int
  status : String
  description : String
  metadata : List (String × String)
  transactionID : Int
  cid : String
  cardNumber : String
  cardHash : String
  createdAt : Int
  updatedAt : Int
  completedAt : Option Int
deriving Repr, DecidableEq

/-- First-match lookup in an association list (models Go map read `m[k]`). -/
def assocGet {β : Type} : List (String × β) → String → Option β
  | [], _ => none
  | (k', v) :: rest, k => if k' = k then some v else assocGet rest k

/-- Overwrite-or-append insert (models Go map write `m[k] = v`). -/
def assocSet {β : Type} (m : List (String × β)) (k : String) (v : β) :
    List (String × β) :=
  match m with
  | [] => [(k, v)]
  | (k', v') :: rest =>
    if k' = k then (k, v) :: rest else (k', v') :: assocSet rest k v

theorem assocGet_assocSet {β : Type} (m : List (String × β)) (k k' : String) (v : β) :
    assocGet (assocSet m k v) k' = if k = k' then some v else assocGet m k' := by
  induction m with
  | nil => by_cases h : k = k' <;> simp [assocSet, assocGet, h]
  | cons hd tl ih =>
    obtain ⟨k₀, v₀⟩ := hd
    simp only [assocSet]
    by_cases h0 : k₀ = k
    · subst h0
      simp only [if_pos rfl, assocGet]
      by_cases h : k₀ = k' <;> simp [h]
    · simp only [if_neg h0, assocGet]
      by_cases h1 : k₀ = k'
      · subst h1
        have hne : ¬ k = k₀ := fun hh => h0 hh.symm
        simp [hne]
      · simp [h1, ih]

/-- The in-memory transaction store (models `MemoryStorage.transactions`,
storage.go).  The mutex only guards concurrent access and has no sequential
semantics. -/
def MemStore := List (String × Transaction)
deriving DecidableEq

/-- Models `MemoryStorage.StoreTransaction` (storage.go:26-43).  The `nil`
pointer guard has no counterpart in the model (transactions are values).
Only the ID is checked; the record is stored keyed by its token. -/
def StoreTransaction (s : MemStore) (t : Transaction) : Except String MemStore :=
  if t.id = "" then .error "transaction ID cannot be empty"
  else .ok (assocSet s t.token t)

/-- Models `MemoryStorage.GetTransaction` (storage.go:46-62). -/
def GetTransaction (s : MemStore) (token : String) : Except String Transaction :=
  if token = "" then .error "token cannot be empty"
  else
    match assocGet s token with
    | none => .error ("transaction not found: " ++ token)
    | some t => .ok t

/-- Models `MemoryStorage.UpdateTransaction` (storage.go:65-88); it stamps
`UpdatedAt` with the current time before storing. -/
def UpdateTransaction (s : MemStore) (t : Transaction) (now : Int) :
    Except String MemStore :=
  if t.id = "" then .error "transaction ID cannot be empty"
  else
    match assocGet s t.token with
    | none => .error ("transaction not found: " ++ t.token)
    | some _ => .ok (assocSet s t.token { t with updatedAt := now })

/-- A sample transaction used by concrete counterexamples and witnesses. -/
def txSample : Transaction :=
  { id := "i", token := "tk", amount := 20000, status := "INIT",
    description := "", metadata := [], transactionID := 0, cid := "",
    cardNumber := "", cardHash := "", createdAt := 7, updatedAt := 7,
    completedAt := none }

/-! ### Card masking (crypto.go) -/

/-- Character class `[0-9]` as used by `sanitizeCardNumber`. -/
def isGoDigit (c : Char) : Bool := '0' ≤ c && c ≤ '9'

/-- Models `sanitizeCardNumber` (crypto.go:237-247): keep only ASCII digits. -/
def sanitizeCardNumber (cardNumber : String) : String :=
  String.mk (cardNumber.data.filter isGoDigit)

/-- Models `MaskCardNumber` (crypto.go:220-234).  Go indexes the sanitized
string by bytes; the sanitized string is all-ASCII, so byte positions and
character positions coincide and the model works on characters. -/
def MaskCardNumber (cardNumber : String) : String :=
  let clean := (sanitizeCardNumber cardNumber).data
  if clean.length < 4 then "****"
  else String.mk (List.replicate (clean.length - 4) '*' ++
    clean.drop (clean.length - 4))

/-! ### Validation (validation.go) -/

/-- `MinAmount` (validation.go): minimum amount in Rials. -/
def MinAmount : Int := 10000

/-- `MaxAmount` (validation.go): maximum amount in Rials. -/
def MaxAmount : Int := 5000000000

/-- `MaxDescriptionLength` (validation.go). -/
def MaxDescriptionLength : Int := 255

/-- Models `ValidationError` (errors.go:47-50). -/
structure ValidationError where
  field : String
  message : String
deriving Repr, DecidableEq

/-- Models `ValidationErrors.Error()` (errors.go:59-65). -/
def validationErrorsMessage (l : List ValidationError) : String :=
  if l = [] then "validation errors"
  else
    let n := l.length
    "validation errors (" ++ toString n ++ " errors)"

/-- Models `PaymentInitRequest` (models.go). -/
structure PaymentInitRequest where
  amount : Int
  callbackURL : String
  description : String
  mobile : String
  factorNumber : String
  validCardNumber : String
deriving Repr, DecidableEq

/-- `cardNumberRegex = ^[0-9]{16}$` (validation.go). -/
def cardNumberRegexMatch (s : String) : Bool :=
  s.data.length = 16 && s.data.all isGoDigit

/-- `mobileRegex = ^09[0-9]{9}$` (validation.go). -/
def mobileRegexMatch (s : String) : Bool :=
  match s.data with
  | '0' :: '9' :: rest => rest.length = 9 && rest.all isGoDigit
  | _ => false

/-- Character class `[a-zA-Z0-9]` of `urlRegex`. -/
def isHostStart (c : Char) : Bool :=
  ('a' ≤ c && c ≤ 'z') || ('A' ≤ c && c ≤ 'Z') || ('0' ≤ c && c ≤ '9')

/-- Character class `[-a-zA-Z0-9_.]` of `urlRegex` (the part before the
mandatory dot). -/
def isHostMid (c : Char) : Bool :=
  isHostStart c || c = '-' || c = '_' || c = '.'

/-- Character class `[-a-zA-Z0-9_]` of `urlRegex` (the part after the
mandatory dot). -/
def isHostEnd (c : Char) : Bool :=
  isHostStart c || c = '-' || c = '_'

/-- Character class `[-a-zA-Z0-9_%$.~#&=]` of `urlRegex` (the path part). -/
def isPathChar (c : Char) : Bool :=
  isHostStart c || c = '-' || c = '_' || c = '%' || c = '$' || c = '.' ||
  c = '~' || c = '#' || c = '&' || c = '='

/-- Tail of `urlRegex` after the mandatory dot: `[a-zA-Z0-9][-a-zA-Z0-9_]+`. -/
def urlAfterDot (l : List Char) : Bool :=
  match l with
  | c :: d => isHostStart c && !d.isEmpty && d.all isHostEnd
  | [] => false

/-- Searches for the separator-dot split point of `urlRegex`: does `l`
decompose as `b ++ '.' :: t` with `b` made of `[-a-zA-Z0-9_.]` characters
(possibly empty — `urlMidDot` has already consumed the one character the
`+` group mandates) and `t` matching the after-dot part?  Implements the
regex's existential (backtracking) semantics. -/
def urlDotSplit (l : List Char) : Bool :=
  match l with
  | [] => false
  | '.' :: t => urlAfterDot t || urlDotSplit t
  | c :: t => isHostMid c && urlDotSplit t

/-- The mandatory `[-a-zA-Z0-9_.]+` segment followed by the separator dot
and the after-dot part: the `+` requires at least one middle-class
character (which may itself be a dot) before the separator dot. -/
def urlMidDot (l : List Char) : Bool :=
  match l with
  | [] => false
  | c :: t => isHostMid c && urlDotSplit t

/-- Host part of `urlRegex`: `[a-zA-Z0-9][-a-zA-Z0-9_.]+\.[a-zA-Z0-9][-a-zA-Z0-9_]+`. -/
def urlCore (l : List Char) : Bool :=
  match l with
  | a :: rest => isHostStart a && urlMidDot rest
  | [] => false

/-- Optional path of `urlRegex`: `(/[-a-zA-Z0-9_%$.~#&=]*)?`. -/
def urlOpt (l : List Char) : Bool :=
  match l with
  | [] => true
  | '/' :: es => es.all isPathChar
  | _ => false

/-- Strips the `https?://` scheme of `urlRegex`. -/
def urlScheme (l : List Char) : Option (List Char) :=
  match l with
  | 'h' :: 't' :: 't' :: 'p' :: 's' :: ':' :: '/' :: '/' :: r => some r
  | 'h' :: 't' :: 't' :: 'p' :: ':' :: '/' :: '/' :: r => some r
  | _ => none

/-- Models a match of `urlRegex` (validation.go):
`^https?://[a-zA-Z0-9][-a-zA-Z0-9_.]+\.[a-zA-Z0-9][-a-zA-Z0-9_]+(/[-a-zA-Z0-9_%$.~#&=]*)?$`.
None of the non-path character classes contain `/`, so in any match the first
`/` after the scheme starts the optional path group; the matcher splits there
and decides the host part with explicit backtracking over dot positions. -/
def urlRegexMatch (s : String) : Bool :=
  match urlScheme s.data with
  | none => false
  | some r => urlCore (r.takeWhile (· ≠ '/')) && urlOpt (r.dropWhile (· ≠ '/'))

/-- Models `ValidatePaymentInitRequest` (validation.go:38-101): aggregates
every violated field, in source order.  Returning `[]` models the Go function
returning `nil`. -/
def ValidatePaymentInitRequest (req : PaymentInitRequest) : List ValidationError :=
  (if req.amount < MinAmount then
    [{ field := "amount",
       message := "amount must be at least " ++ toString MinAmount ++ " Rials" }]
   else []) ++
  (if req.amount > MaxAmount then
    [{ field := "amount",
       message := "amount must be at most " ++ toString MaxAmount ++ " Rials" }]
   else []) ++
  (if req.callbackURL = "" then
    [{ field := "callback_url", message := "callback URL is required" }]
   else if !urlRegexMatch req.callbackURL then
    [{ field := "callback_url",
       message := "callback URL must be a valid HTTP(S) URL" }]
   else []) ++
  (if (req.description.utf8ByteSize : Int) > MaxDescriptionLength then
    [{ field := "description",
       message := "description must be at most " ++ toString MaxDescriptionLength
         ++ " characters" }]
   else []) ++
  (if req.mobile ≠ "" && !mobileRegexMatch req.mobile then
    [{ field := "mobile",
       message := "mobile must be a valid Iranian mobile number (e.g., 09123456789)" }]
   else []) ++
  (if req.validCardNumber ≠ "" &&
      !cardNumberRegexMatch (sanitizeCardNumber req.validCardNumber) then
    [{ field := "valid_card_number",
       message := "valid card number must be a 16-digit number" }]
   else [])

/-! ### Middleware (middleware.go) -/

/-- Accumulator pass of `goSplitSpace`. -/
def splitSpaceAux (acc : List Char) : List Char → List String
  | [] => [String.mk acc.reverse]
  | ' ' :: t => String.mk acc.reverse :: splitSpaceAux [] t
  | c :: t => splitSpaceAux (c :: acc) t

/-- Models Go `strings.Split(s, " ")`: split around every single space,
keeping empty fields. -/
def goSplitSpace (s : String) : List String := splitSpaceAux [] s.data

/-- The observable outcome of running one middleware-wrapped handler on a
request: either the middleware rejected the request with an HTTP status and
`http.Error` body, or the wrapped handler ran and produced `val`. -/
inductive MWResult (α : Type) where
  | reject (status : Int) (body : String)
  | handled (val : α)
deriving Repr, DecidableEq

/-- Models `AuthMiddleware` (middleware.go:144-171) applied to one request.
`apiKey` is `config.GetAPIKey()`; `authHeader` is
`r.Header.Get("Authorization")` (Go returns `""` when the header is absent);
`handler` stands for the wrapped handler's effect.  The Go code checks
`len(parts) != 2 || parts[0] != "Bearer"` and then indexes `parts[1]`; the
model matches on the two-element shape, which is the same test. -/
def AuthMiddleware {α : Type} (apiKey : String) (handler : α)
    (authHeader : String) : MWResult α :=
  if authHeader = "" then .reject 401 "Unauthorized"
  else
    match goSplitSpace authHeader with
    | [scheme, tok] =>
      if scheme ≠ "Bearer" then .reject 401 "Invalid authorization format"
      else if tok ≠ apiKey then .reject 401 "Invalid API key"
      else .handled handler
    | _ => .reject 401 "Invalid authorization format"

/-- Outcome of the rate-limit middleware for one request. -/
inductive RLOutcome where
  | handled
  | rejected (status : Int) (body : String)
deriving Repr, DecidableEq

/-- Per-IP limiter state: the `clients` map of `RateLimitMiddleware`
(middleware.go:70-109), mapping an IP to `(count, lastSeen)`. -/
def RLState := List (String × (Int × Int))
deriving DecidableEq

/-- Models the request body of the handler returned by
`RateLimitMiddleware(limit, window)` (middleware.go:79-108): one request from
resolved client IP `ip` at time `now` (ns).  Returns the outcome and the
updated `clients` map.  `window` is in nanoseconds — the unit of Go's
`time.Duration`. -/
def RateLimitStep (limit window : Int) (st : RLState) (ip : String)
    (now : Int) : RLOutcome × RLState :=
  match assocGet st ip with
  | none => (.handled, assocSet st ip (1, now))
  | some (cnt, lastSeen) =>
    if now - lastSeen > window then (.handled, assocSet st ip (1, now))
    else
      let cnt' := cnt + 1
      if cnt' > limit then
        (.rejected 429 "Rate limit exceeded", assocSet st ip (cnt', now))
      else (.handled, assocSet st ip (cnt', now))

/-- The limiter state after the first `k` requests of the time series `t`
(request `i` arrives at time `t i`), all from the same resolved IP, starting
from the middleware's initial empty map. -/
def rlRun (limit window : Int) (ip : String) (t : Nat → Int) : Nat → RLState
  | 0 => []
  | k + 1 => (RateLimitStep limit window (rlRun limit window ip t k) ip (t k)).2

/-- The outcome of request `k` (0-based) of the time series `t`. -/
def rlOut (limit window : Int) (ip : String) (t : Nat → Int) (k : Nat) :
    RLOutcome :=
  (RateLimitStep limit window (rlRun limit window ip t k) ip (t k)).1

/-! ### Route registration (handlers.go `RegisterRoutes`) -/

/-- One element of a middleware chain as registered by `RegisterRoutes`.
`rateLimit` carries the two arguments given to `RateLimitMiddleware`; the
window is a Go `time.Duration`, i.e. an `int64` count of nanoseconds. -/
inductive MiddlewareSpec where
  | requestID
  | logging
  | securityHeaders
  | rateLimit (limit : Int) (window : Int)
  | ipFilter
  | auth
deriving Repr, DecidableEq

/-- A registered route: method, path and middleware chain in declared order. -/
structure Route where
  method : String
  path : String
  chain : List MiddlewareSpec
deriving Repr, DecidableEq

/-- Models `RegisterRoutes` (handlers.go:186-235).  The Go source passes the
untyped constant `60` as the `window time.Duration` argument, which converts
to `time.Duration(60)` — 60 nanoseconds. -/
def RegisterRoutes : List Route :=
  [ { method := "POST", path := "/payments/init",
      chain := [.requestID, .logging, .securityHeaders, .rateLimit 10 60, .auth] },
    { method := "POST", path := "/payments/verify",
      chain := [.requestID, .logging, .securityHeaders, .rateLimit 10 60, .auth] },
    { method := "GET", path := "/payments/status",
      chain := [.requestID, .logging, .securityHeaders, .rateLimit 20 60, .auth] },
    { method := "POST", path := "/payments/refund",
      chain := [.requestID, .logging, .securityHeaders, .rateLimit 5 60, .auth] },
    { method := "POST", path := "/payments/callback",
      chain := [.requestID, .logging, .securityHeaders, .ipFilter] } ]

/-- First `rateLimit` entry of a middleware chain. -/
def chainRateLimit : List MiddlewareSpec → Option (Int × Int)
  | [] => none
  | .rateLimit l w :: _ => some (l, w)
  | _ :: rest => chainRateLimit rest

/-- The `(limit, window)` pair handed to `RateLimitMiddleware` for the route
registered at `path` (window in nanoseconds, as `time.Duration`). -/
def routeRateLimit (path : String) : Option (Int × Int) :=
  match RegisterRoutes.find? (fun r => r.path == path) with
  | some r => chainRateLimit r.chain
  | none => none

/-! ### Gateway client (client.go) and handler (handlers.go) -/

/-- The part of Go's `*http.Response` that `makeRequest` observes. -/
structure HTTPResponse where
  statusCode : Int
  body : String
deriving Repr, DecidableEq

/-- Models `APIError` (models.go:487-496). -/
structure APIError where
  message : String
  code : String
  errors : List (String × String)
deriving Repr, DecidableEq

/-- The error of `makeRequest`: either the transport failed (`Do` returned an
error, wrapped as `api request failed: ...`) or the gateway answered with a
non-2xx status (an `*APIError`). -/
inductive ReqError where
  | transport (message : String)
  | api (e : APIError)
deriving Repr, DecidableEq

/-- The `([]byte, int, error)` triple returned by `makeRequest`. -/
structure MakeRequestResult where
  body : Option String
  statusCode : Int
  err : Option ReqError
deriving Repr, DecidableEq

/-- Models `makeRequest` (client.go:256-335).  `doResult` is the outcome of
the single `httpClient.Do` call (the oracle for the external gateway);
`decodeAPIError` models `json.Unmarshal` of the body into `APIError`.
Request construction and the body-read error path (`io.ReadAll` on an
in-memory body) are not modelled; see the header comment. -/
def makeRequest (doResult : Except String HTTPResponse)
    (decodeAPIError : String → Option APIError) : MakeRequestResult :=
  match doResult with
  | .error m => { body := none, statusCode := 0,
                  err := some (.transport ("api request failed: " ++ m)) }
  | .ok resp =>
    if resp.statusCode < 200 ∨ 300 ≤ resp.statusCode then
      let apiErr :=
        match decodeAPIError resp.body with
        | some e => e
        | none => { message := resp.body, code := toString resp.statusCode,
                    errors := [] }
      { body := none, statusCode := resp.statusCode, err := some (.api apiErr) }
    else { body := some resp.body, statusCode := resp.statusCode, err := none }

/-- Models `PaymentInitResponse` (models.go). -/
structure PaymentInitResponse where
  status : Int
  token : String
  message : String
  errors : List (String × String)
deriving Repr, DecidableEq

/-- Models `PaymentVerifyResponse` (models.go). -/
structure PaymentVerifyResponse where
  status : Int
  amount : String
  realAmount : Int
  transID : Int
  factorNumber : String
  mobile : String
  description : String
  cardNumber : String
  paymentDate : String
  cid : String
  message : String
  errors : List (String × String)
deriving Repr, DecidableEq

/-- The storage collaborator seen by the client: models `StorageInterface`
(interfaces.go) over an abstract state type `σ`; `update` receives the
current time because the Go implementation stamps `UpdatedAt` itself. -/
structure StorageOps (σ : Type) where
  store : σ → Transaction → Except String σ
  get : σ → String → Except String Transaction
  update : σ → Transaction → Int → Except String σ

/-- The in-memory reference storage (storage.go) as a `StorageOps`. -/
def memOps : StorageOps MemStore :=
  { store := StoreTransaction, get := GetTransaction, update := UpdateTransaction }

/-- The error of a client operation, mirroring the `error` return of
`InitiatePayment`/`VerifyPayment`.  The `validation` shape exists so that
claims about validation errors can be stated; the client operations in
client.go never construct it (that is the content of claim C1). -/
inductive ClientErr where
  | requestFailed (e : ReqError)
  | parseFailed
  | opFailed (message : String)
  | validation (errs : List ValidationError)
deriving Repr, DecidableEq

/-- The observable result of `Client.InitiatePayment`: the
`(*PaymentInitResponse, error)` pair, the number of `httpClient.Do`
invocations, and the storage state afterwards. -/
structure InitOutcome (σ : Type) where
  resp : Option PaymentInitResponse
  err : Option ClientErr
  doCalls : Nat
  store : σ
deriving Repr

/-- Models `Client.InitiatePayment` (client.go:57-122).  `decodeInit` models
`json.Unmarshal` into `PaymentInitResponse`; `now` is the current time used
for `generateRequestID` and the `CreatedAt`/`UpdatedAt` stamps.  Note the Go
function performs no input validation: it calls `makeRequest` (and hence
`Do`) unconditionally, and a storage failure after a successful gateway call
is logged and swallowed. -/
def InitiatePayment {σ : Type} (ops : StorageOps σ) (s : σ)
    (doResult : Except String HTTPResponse)
    (decodeAPIError : String → Option APIError)
    (decodeInit : String → Option PaymentInitResponse)
    (now : Int) (amount : Int) (description : String)
    (metadata : List (String × String)) : InitOutcome σ :=
  let r := makeRequest doResult decodeAPIError
  match r.err with
  | some e => { resp := none, err := some (.requestFailed e), doCalls := 1, store := s }
  | none =>
    match decodeInit (r.body.getD "") with
    | none => { resp := none, err := some .parseFailed, doCalls := 1, store := s }
    | some apiResp =>
      if apiResp.status ≠ 1 then
        { resp := some apiResp,
          err := some (.opFailed ("payment initialization failed: " ++ apiResp.message)),
          doCalls := 1, store := s }
      else
        let tx : Transaction :=
          { id := generateRequestID now, token := apiResp.token, amount := amount,
            status := "INIT", description := description, metadata := metadata,
            transactionID := 0, cid := "", cardNumber := "", cardHash := "",
            createdAt := now, updatedAt := now, completedAt := none }
        match ops.store s tx with
        | .ok s' => { resp := some apiResp, err := none, doCalls := 1, store := s' }
        | .error _ => { resp := some apiResp, err := none, doCalls := 1, store := s }

/-- The observable result of `Client.VerifyPayment`. -/
structure VerifyOutcome (σ : Type) where
  resp : Option PaymentVerifyResponse
  err : Option ClientErr
  doCalls : Nat
  store : σ
deriving Repr

/-- Models `Client.VerifyPayment` (client.go:125-183).  On gateway success it
looks the transaction up by token; when found it is marked `PAID`, enriched
(`TransactionID`, `CardNumber`, `CID`), stamped and completed, and written
back; a lookup or update failure is logged and swallowed. -/
def VerifyPayment {σ : Type} (ops : StorageOps σ) (s : σ)
    (doResult : Except String HTTPResponse)
    (decodeAPIError : String → Option APIError)
    (decodeVerify : String → Option PaymentVerifyResponse)
    (now : Int) (token : String) : VerifyOutcome σ :=
  let r := makeRequest doResult decodeAPIError
  match r.err with
  | some e => { resp := none, err := some (.requestFailed e), doCalls := 1, store := s }
  | none =>
    match decodeVerify (r.body.getD "") with
    | none => { resp := none, err := some .parseFailed, doCalls := 1, store := s }
    | some apiResp =>
      if apiResp.status ≠ 1 then
        { resp := some apiResp,
          err := some (.opFailed ("payment verification failed: " ++ apiResp.message)),
          doCalls := 1, store := s }
      else
        match ops.get s token with
        | .ok t =>
          let t' := { t with
            status := "PAID", transactionID := apiResp.transID,
            cardNumber := apiResp.cardNumber, cid := apiResp.cid,
            updatedAt := now, completedAt := some now }
          match ops.update s t' now with
          | .ok s' => { resp := some apiResp, err := none, doCalls := 1, store := s' }
          | .error _ => { resp := some apiResp, err := none, doCalls := 1, store := s }
        | .error _ => { resp := some apiResp, err := none, doCalls := 1, store := s }

/-- The response written by `handlePaymentInit`: an error envelope (from
`respondWithError`) or the successful JSON payload. -/
inductive HandlerResp where
  | errResp (message : String)
  | okResp (resp : PaymentInitResponse)
deriving Repr, DecidableEq

/-- The observable result of the `handlePaymentInit` HTTP handler. -/
structure HandlerOutcome (σ : Type) where
  status : Int
  resp : HandlerResp
  doCalls : Nat
  store : σ
deriving Repr

/-- The callback URL configured for the client (`config.GetCallbackURL()`). -/
structure ClientConfig where
  apiKey : String
  baseURL : String
  callbackURL : String
deriving Repr, DecidableEq

/-- Models `handlePaymentInit` (handlers.go:238-329).  `parseResult` models
`parseJSONBody` of the request body.  Validation runs before any network
call: a non-empty validation-error list makes the handler answer 400 without
touching `makeRequest` (so `doCalls = 0`).  On the success path a transaction
is stored (without metadata — the handler builds none) and a storage failure
is swallowed. -/
def handlePaymentInit {σ : Type} (ops : StorageOps σ) (s : σ)
    (cfg : ClientConfig) (doResult : Except String HTTPResponse)
    (decodeAPIError : String → Option APIError)
    (decodeInit : String → Option PaymentInitResponse)
    (now : Int) (parseResult : Except String PaymentInitRequest) :
    HandlerOutcome σ :=
  match parseResult with
  | .error m => { status := 400, resp := .errResp m, doCalls := 0, store := s }
  | .ok req0 =>
    let verrs := ValidatePaymentInitRequest req0
    if verrs = [] then
      let req := if req0.callbackURL = "" then
        { req0 with callbackURL := cfg.callbackURL } else req0
      let r := makeRequest doResult decodeAPIError
      match r.err with
      | some _ => { status := 500, resp := .errResp "Failed to initialize payment",
                    doCalls := 1, store := s }
      | none =>
        match decodeInit (r.body.getD "") with
        | none => { status := 500, resp := .errResp "Failed to parse API response",
                    doCalls := 1, store := s }
        | some apiResp =>
          if apiResp.status ≠ 1 then
            { status := r.statusCode, resp := .errResp apiResp.message,
              doCalls := 1, store := s }
          else
            let tx : Transaction :=
              { id := generateRequestID now, token := apiResp.token,
                amount := req.amount, status := "INIT",
                description := req.description, metadata := [],
                transactionID := 0, cid := "", cardNumber := "", cardHash := "",
                createdAt := now, updatedAt := now, completedAt := none }
            match ops.store s tx with
            | .ok s' => { status := 200, resp := .okResp apiResp, doCalls := 1,
                          store := s' }
            | .error _ => { status := 200, resp := .okResp apiResp, doCalls := 1,
                            store := s }
    else
      { status := 400, resp := .errResp (validationErrorsMessage verrs),
        doCalls := 0, store := s }

/-! ### Storage invariants (storage.go) -/

/-- One call into the storage layer. -/
inductive StoreOp where
  | store (t : Transaction)
  | update (t : Transaction) (now : Int)

/-- Applies one storage call; a call that returns an error leaves the map
unchanged (the Go methods return before touching the map on error). -/
def applyOp (s : MemStore) : StoreOp → MemStore
  | .store t =>
    match StoreTransaction s t with
    | .ok s' => s'
    | .error _ => s
  | .update t now =>
    match UpdateTransaction s t now with
    | .ok s' => s'
    | .error _ => s

/-- Runs a sequence of storage calls. -/
def runOps (s : MemStore) : List StoreOp → MemStore
  | [] => s
  | op :: rest => runOps (applyOp s op) rest

/-- A store state reachable from `NewMemoryStorage()` (the empty map) by any
sequence of store/update calls, successful or not. -/
def ReachableStore (s : MemStore) : Prop :=
  ∃ ops : List StoreOp, runOps [] ops = s

/-- The storage-layer data invariant: every entry has a non-empty ID and is
keyed by its own token. -/
def StoreInv (s : MemStore) : Prop :=
  ∀ k t, assocGet s k = some t → t.id ≠ "" ∧ t.token = k

theorem storeInv_applyOp (s : MemStore) (op : StoreOp) (h : StoreInv s) :
    StoreInv (applyOp s op) := by
  intro k t hget
  cases op with
  | store t0 =>
    simp only [applyOp, StoreTransaction] at hget
    by_cases hid : t0.id = ""
    · exact h k t (by simpa [hid] using hget)
    · simp only [hid, if_neg, if_false] at hget
      rw [assocGet_assocSet] at hget
      by_cases hk : t0.token = k
      · refine ⟨?_, ?_⟩ <;> simp_all
      · exact h k t (by simpa [hk] using hget)
  | update t0 now =>
    simp only [applyOp, UpdateTransaction] at hget
    by_cases hid : t0.id = ""
    · exact h k t (by simpa [hid] using hget)
    · simp only [hid, if_neg, if_false] at hget
      cases hmem : assocGet s t0.token with
      | none => exact h k t (by simpa [hmem] using hget)
      | some told =>
        simp only [hmem] at hget
        rw [assocGet_assocSet] at hget
        by_cases hk : t0.token = k
        · have : ({ t0 with updatedAt := now } : Transaction) = t := by
            simpa [hk] using hget
          subst this
          exact ⟨hid, hk⟩
        · exact h k t (by simpa [hk] using hget)

theorem storeInv_runOps (ops : List StoreOp) :
    ∀ s : MemStore, StoreInv s → StoreInv (runOps s ops) := by
  induction ops with
  | nil => intro s h; exact h
  | cons op rest ih =>
    intro s h
    exact ih (applyOp s op) (storeInv_applyOp s op h)

/-- Every reachable store state satisfies the invariant. -/
theorem storeInv_of_reachable (s : MemStore) (h : ReachableStore s) :
    StoreInv s := by
  obtain ⟨ops, hops⟩ := h
  have hempty : StoreInv ([] : MemStore) := by
    intro k t hget
    simp [assocGet] at hget
  exact hops ▸ storeInv_runOps ops [] hempty

/-! ### `toString` of an `Int` is never empty (used for `generateRequestID`) -/

theorem toDigitsCore_length_ge (b : Nat) :
    ∀ (fuel n : Nat) (ds : List Char),
      ds.length ≤ (Nat.toDigitsCore b fuel n ds).length := by
  intro fuel
  induction fuel with
  | zero => intro n ds; simp [Nat.toDigitsCore]
  | succ f ih =>
    intro n ds
    simp only [Nat.toDigitsCore]
    by_cases h : n / b = 0
    · simp [h]
    · simp only [h, if_false]
      calc ds.length ≤ (Nat.digitChar (n % b) :: ds).length := by simp
        _ ≤ _ := ih (n / b) (Nat.digitChar (n % b) :: ds)

theorem toDigits_ne_nil (n : Nat) : Nat.toDigits 10 n ≠ [] := by
  simp only [Nat.toDigits, Nat.toDigitsCore]
  by_cases h : n / 10 = 0
  · simp [h]
  · simp only [h, if_false]
    intro hc
    have hlen := toDigitsCore_length_ge 10 n (n / 10) [Nat.digitChar (n % 10)]
    rw [hc] at hlen
    simp at hlen

theorem nat_repr_ne_empty (n : Nat) : Nat.repr n ≠ "" := by
  simp only [Nat.repr, List.asString]
  intro h
  have hdata : Nat.toDigits 10 n = [] := by
    have := congrArg String.data h
    simpa using this
  exact toDigits_ne_nil n hdata

/-- `generateRequestID` never returns the empty string, so transactions built
by the client always pass the storage layer's ID check. -/
theorem generateRequestID_ne_empty (now : Int) : generateRequestID now ≠ "" := by
  show Int.repr now ≠ ""
  cases now with
  | ofNat m => exact nat_repr_ne_empty m
  | negSucc m =>
    simp only [Int.repr]
    intro h
    have hdata := congrArg String.data h
    rw [String.data_append] at hdata
    simp at hdata

/-! ### Shared helper lemmas for the claims -/

theorem makeRequest_2xx (status : Int) (body : String)
    (decodeAPIError : String → Option APIError)
    (h1 : 200 ≤ status) (h2 : status < 300) :
    makeRequest (.ok { statusCode := status, body := body }) decodeAPIError =
      { body := some body, statusCode := status, err := none } := by
  simp only [makeRequest]
  rw [if_neg (by omega)]

/-! ### Claim theorems -/

/-- Claim C10 (confirmed): if the digit-sanitized form of the input has
length exactly 4, `MaskCardNumber` returns those 4 digits completely
unmasked (no `*` anywhere in the output); if the sanitized form is shorter
than 4, it returns the fixed string `"****"`. -/
theorem maskCardNumber_short_inputs (s : String) :
    ((sanitizeCardNumber s).length = 4 →
      MaskCardNumber s = sanitizeCardNumber s ∧
      ∀ c ∈ (MaskCardNumber s).data, c ≠ '*') ∧
    ((sanitizeCardNumber s).length < 4 → MaskCardNumber s = "****") := by
  constructor
  · intro h4
    have hdata : (sanitizeCardNumber s).data.length = 4 := h4
    have heq : MaskCardNumber s = sanitizeCardNumber s := by
      simp only [MaskCardNumber, hdata]
      rw [if_neg (by omega)]
      simp [sanitizeCardNumber]
    refine ⟨heq, ?_⟩
    intro c hc
    rw [heq] at hc
    simp only [sanitizeCardNumber] at hc
    have hdig : isGoDigit c = true := (List.mem_filter.mp hc).2
    intro hstar
    subst hstar
    simp [isGoDigit] at hdig
  · intro hlt
    have hdata : (sanitizeCardNumber s).data.length < 4 := hlt
    simp only [MaskCardNumber]
    rw [if_pos hdata]

/-- Witness for C10 at the concrete inputs `"12 34"` (sanitizes to 4 digits)
and `"1 2"` (sanitizes to 2 digits). -/
theorem maskCardNumber_short_inputs_witness :
    MaskCardNumber "12 34" = sanitizeCardNumber "12 34" ∧
    MaskCardNumber "1 2" = "****" :=
  ⟨((maskCardNumber_short_inputs "12 34").1 (by decide)).1,
   (maskCardNumber_short_inputs "1 2").2 (by decide)⟩

/-- Claim C9 (confirmed): for a gateway HTTP response with status outside
[200, 300), `makeRequest` returns a nil body together with a non-nil error;
the error is the `APIError` decoded from the body when it parses as one,
else a generic `APIError` whose message is the raw body and whose code is
the decimal rendering of the status code. -/
theorem makeRequest_non2xx (status : Int) (body : String)
    (decodeAPIError : String → Option APIError)
    (h : status < 200 ∨ 300 ≤ status) :
    (makeRequest (.ok { statusCode := status, body := body }) decodeAPIError).body
      = none ∧
    (makeRequest (.ok { statusCode := status, body := body }) decodeAPIError).err
      = some (.api
        (match decodeAPIError body with
         | some e => e
         | none => { message := body, code := toString status, errors := [] })) := by
  simp only [makeRequest]
  rw [if_pos h]
  exact ⟨rfl, rfl⟩

/-- Witness for C9 at status 404: one undecodable body (generic error with
the raw body and code `"404"`) and one decodable body. -/
theorem makeRequest_non2xx_witness :
    (makeRequest (.ok { statusCode := 404, body := "oops" })
      (fun _ => none)).body = none ∧
    (makeRequest (.ok { statusCode := 404, body := "oops" })
      (fun _ => none)).err =
      some (.api { message := "oops", code := "404", errors := [] }) ∧
    (makeRequest (.ok { statusCode := 404, body := "E" })
      (fun _ => some { message := "m", code := "c", errors := [] })).err =
      some (.api { message := "m", code := "c", errors := [] }) :=
  ⟨(makeRequest_non2xx 404 "oops" (fun _ => none) (by omega)).1,
   (makeRequest_non2xx 404 "oops" (fun _ => none) (by omega)).2,
   (makeRequest_non2xx 404 "E"
     (fun _ => some { message := "m", code := "c", errors := [] }) (by omega)).2⟩

/-- Claim C8 (confirmed): when the gateway verifies successfully but
`GetTransaction` errors for the given token, `VerifyPayment` returns the
decoded verification result unmodified with no error, and the store is left
unchanged. -/
theorem verifyPayment_missing_transaction (s : MemStore) (token : String)
    (code : Int) (body : String)
    (decodeAPIError : String → Option APIError)
    (decodeVerify : String → Option PaymentVerifyResponse)
    (now : Int) (r : PaymentVerifyResponse)
    (h1 : 200 ≤ code) (h2 : code < 300)
    (hdec : decodeVerify body = some r) (hst : r.status = 1)
    (hget : (GetTransaction s token).toOption = none) :
    VerifyPayment memOps s (.ok { statusCode := code, body := body })
      decodeAPIError decodeVerify now token =
      { resp := some r, err := none, doCalls := 1, store := s } := by
  simp only [VerifyPayment, makeRequest_2xx code body decodeAPIError h1 h2,
    Option.getD, hdec]
  rw [if_neg (by simp [hst])]
  cases hg : GetTransaction s token with
  | ok t => rw [hg] at hget; simp [Except.toOption] at hget
  | error e => simp [memOps, hg]

/-- A sample successful verification payload used by concrete witnesses and
counterexamples. -/
def verifyRespSample : PaymentVerifyResponse :=
  { status := 1, amount := "20000", realAmount := 19500, transID := 77,
    factorNumber := "", mobile := "", description := "", cardNumber := "6037****",
    paymentDate := "", cid := "h", message := "", errors := [] }

/-- Witness for C8: empty store, token `"t"`. -/
theorem verifyPayment_missing_transaction_witness :
    VerifyPayment memOps [] (.ok { statusCode := 200, body := "B" })
      (fun _ => none) (fun _ => some verifyRespSample) 9 "t" =
      { resp := some verifyRespSample, err := none, doCalls := 1, store := [] } :=
  verifyPayment_missing_transaction [] "t" 200 "B" (fun _ => none)
    (fun _ => some verifyRespSample) 9 verifyRespSample (by omega) (by omega)
    rfl rfl (by decide)

/-- Counterexample for C2: the three 401 rejection causes are
distinguishable — a malformed header shape (`"Basic x"`) and a mismatched
credential (`"Bearer y"` against key `"k"`) produce different response
bodies, so the rejection response is not identical across failure causes. -/
theorem authMiddleware_distinct_rejections_cex :
    AuthMiddleware "k" (0 : Nat) "Basic x" =
      .reject 401 "Invalid authorization format" ∧
    AuthMiddleware "k" (0 : Nat) "Bearer y" = .reject 401 "Invalid API key" ∧
    ("Invalid authorization format" : String) ≠ "Invalid API key" := by
  decide

/-- Claim C2 (amended): every request with a missing header, malformed
header shape, or mismatched credential is rejected with HTTP 401 before the
wrapped handler runs (the three causes share the status code but carry
distinct response bodies), and a request whose bearer token exactly equals
the configured credential invokes the wrapped handler. -/
theorem authMiddleware_amended {α : Type} (apiKey : String) (handler : α)
    (header : String) :
    (header = "" →
      AuthMiddleware apiKey handler header = .reject 401 "Unauthorized") ∧
    (header ≠ "" → (goSplitSpace header).length ≠ 2 →
      AuthMiddleware apiKey handler header =
        .reject 401 "Invalid authorization format") ∧
    (∀ scheme tok, header ≠ "" → goSplitSpace header = [scheme, tok] →
      scheme ≠ "Bearer" →
      AuthMiddleware apiKey handler header =
        .reject 401 "Invalid authorization format") ∧
    (∀ tok, header ≠ "" → goSplitSpace header = ["Bearer", tok] →
      tok ≠ apiKey →
      AuthMiddleware apiKey handler header = .reject 401 "Invalid API key") ∧
    (header ≠ "" → goSplitSpace header = ["Bearer", apiKey] →
      AuthMiddleware apiKey handler header = .handled handler) := by
  refine ⟨?_, ?_, ?_, ?_, ?_⟩
  · intro he
    simp [AuthMiddleware, he]
  · intro hne hlen
    simp only [AuthMiddleware, if_neg hne]
    rcases hl : goSplitSpace header with _ | ⟨x, _ | ⟨y, _ | ⟨z, rest⟩⟩⟩ <;>
      first
      | rfl
      | (rw [hl] at hlen; exact absurd rfl hlen)
  · intro scheme tok hne hsplit hscheme
    simp only [AuthMiddleware, if_neg hne]
    rw [hsplit]
    simp [hscheme]
  · intro tok hne hsplit htok
    simp only [AuthMiddleware, if_neg hne]
    rw [hsplit]
    simp [htok]
  · intro hne hsplit
    simp only [AuthMiddleware, if_neg hne]
    rw [hsplit]
    simp

/-- Witness for C2 (amended) at concrete requests: missing header and exact
credential match. -/
theorem authMiddleware_amended_witness :
    AuthMiddleware "k" (0 : Nat) "" = .reject 401 "Unauthorized" ∧
    AuthMiddleware "k" (0 : Nat) "Bearer k" = .handled 0 :=
  ⟨(authMiddleware_amended "k" 0 "").1 rfl,
   (authMiddleware_amended "k" 0 "Bearer k").2.2.2.2 (by decide) (by decide)⟩

/-- Claim C3 (code bug): the `(limit, window)` pairs registered by
`RegisterRoutes` are `10/60`, `10/60`, `20/60`, `5/60` — but the window
argument is the `time.Duration` value `60`, i.e. 60 **nanoseconds**: it is
smaller than one second and in particular is not 60 seconds
(`60 * timeSecond`). -/
theorem registerRoutes_window_is_60ns :
    routeRateLimit "/payments/init" = some (10, 60) ∧
    routeRateLimit "/payments/verify" = some (10, 60) ∧
    routeRateLimit "/payments/status" = some (20, 60) ∧
    routeRateLimit "/payments/refund" = some (5, 60) ∧
    (60 : Int) < timeSecond ∧ (60 : Int) ≠ 60 * timeSecond := by
  decide

/-- A transaction with an empty gateway token (and a valid ID), as the
storage layer accepts it. -/
def txEmptyToken : Transaction :=
  { id := "a", token := "", amount := 20000, status := "INIT",
    description := "", metadata := [], transactionID := 0, cid := "",
    cardNumber := "", cardHash := "", createdAt := 3, updatedAt := 3,
    completedAt := none }

/-- Counterexample for C5: `StoreTransaction` accepts (returns no error for)
a transaction whose gateway token is empty — only the ID is checked. -/
theorem storeTransaction_empty_token_cex :
    StoreTransaction [] txEmptyToken = .ok [("", txEmptyToken)] ∧
    txEmptyToken.token = "" := by
  exact ⟨rfl, rfl⟩

/-- Claim C5 (amended): every transaction accepted by `StoreTransaction` or
`UpdateTransaction` has a non-empty ID (the token is not checked and may be
empty), and consequently every transaction reachable in the store after any
sequence of store/update operations has a non-empty ID. -/
theorem storage_id_nonempty_amended :
    (∀ (s : MemStore) (t : Transaction) (s' : MemStore),
      StoreTransaction s t = .ok s' → t.id ≠ "") ∧
    (∀ (s : MemStore) (t : Transaction) (now : Int) (s' : MemStore),
      UpdateTransaction s t now = .ok s' → t.id ≠ "") ∧
    (∀ s : MemStore, ReachableStore s →
      ∀ k t, assocGet s k = some t → t.id ≠ "") := by
  refine ⟨?_, ?_, ?_⟩
  · intro s t s' hok hid
    simp [StoreTransaction, hid] at hok
  · intro s t now s' hok hid
    simp [UpdateTransaction, hid] at hok
  · intro s hreach k t hget
    exact (storeInv_of_reachable s hreach k t hget).1

/-- Witness for C5 (amended): the sample transaction is accepted by
`StoreTransaction` on the empty store and sits in the reachable result. -/
theorem storage_id_nonempty_amended_witness :
    txSample.id ≠ "" ∧ txSample.id ≠ "" :=
  ⟨storage_id_nonempty_amended.1 [] txSample [("tk", txSample)] rfl,
   storage_id_nonempty_amended.2.2 [("tk", txSample)]
     ⟨[StoreOp.store txSample], rfl⟩ "tk" txSample rfl⟩

/-- A successful gateway init response whose token is empty. -/
def initEmptyTokenResp : PaymentInitResponse :=
  { status := 1, token := "", message := "", errors := [] }

/-- Counterexample for C6: a gateway success response with an empty token.
`InitiatePayment` succeeds (nil error) and persists the transaction under
the empty key, but the transaction is not retrievable: `GetTransaction`
rejects the empty token. -/
theorem initiatePayment_empty_token_cex :
    (InitiatePayment memOps [] (.ok { statusCode := 200, body := "B" })
      (fun _ => none) (fun _ => some initEmptyTokenResp) 5 20000 "" []).err
      = none ∧
    (GetTransaction
      (InitiatePayment memOps [] (.ok { statusCode := 200, body := "B" })
        (fun _ => none) (fun _ => some initEmptyTokenResp) 5 20000 "" []).store
      initEmptyTokenResp.token).toOption = none := by
  exact ⟨rfl, rfl⟩

/-- Claim C6 (amended): on a gateway success response (`Status == 1`) with a
non-empty token, `InitiatePayment` persists a new `INIT` transaction
retrievable from the store by that token and returns the response with a
nil error; and with any storage whose store operation fails, it still
returns the successful response with a nil error and the storage state is
unchanged.  (A success response with an empty token is persisted under the
empty key but is not retrievable, because `GetTransaction` rejects empty
tokens — see the counterexample.) -/
theorem initiatePayment_success_amended :
    (∀ (s : MemStore) (code : Int) (body : String)
        (decodeAPIError : String → Option APIError)
        (decodeInit : String → Option PaymentInitResponse)
        (now amount : Int) (description : String)
        (metadata : List (String × String)) (r : PaymentInitResponse),
      200 ≤ code → code < 300 → decodeInit body = some r → r.status = 1 →
      r.token ≠ "" →
      (InitiatePayment memOps s (.ok { statusCode := code, body := body })
          decodeAPIError decodeInit now amount description metadata).err = none ∧
      (InitiatePayment memOps s (.ok { statusCode := code, body := body })
          decodeAPIError decodeInit now amount description metadata).resp = some r ∧
      GetTransaction
        (InitiatePayment memOps s (.ok { statusCode := code, body := body })
            decodeAPIError decodeInit now amount description metadata).store
        r.token =
        .ok { id := generateRequestID now, token := r.token, amount := amount,
              status := "INIT", description := description,
              metadata := metadata, transactionID := 0, cid := "",
              cardNumber := "", cardHash := "", createdAt := now,
              updatedAt := now, completedAt := none }) ∧
    (∀ (σ : Type) (ops : StorageOps σ) (s : σ) (code : Int) (body : String)
        (decodeAPIError : String → Option APIError)
        (decodeInit : String → Option PaymentInitResponse)
        (now amount : Int) (description : String)
        (metadata : List (String × String)) (r : PaymentInitResponse),
      (∀ t, (ops.store s t).toOption = none) →
      200 ≤ code → code < 300 → decodeInit body = some r → r.status = 1 →
      (InitiatePayment ops s (.ok { statusCode := code, body := body })
          decodeAPIError decodeInit now amount description metadata).err = none ∧
      (InitiatePayment ops s (.ok { statusCode := code, body := body })
          decodeAPIError decodeInit now amount description metadata).resp = some r ∧
      (InitiatePayment ops s (.ok { statusCode := code, body := body })
          decodeAPIError decodeInit now amount description metadata).store = s) := by
  constructor
  · intro s code body decAPI decInit now amount description metadata r
      h1 h2 hdec hst htok
    have hkey := makeRequest_2xx code body decAPI h1 h2
    have hid := generateRequestID_ne_empty now
    simp only [InitiatePayment, hkey, Option.getD_some, hdec]
    rw [if_neg (by simp [hst])]
    simp only [memOps]
    split
    · rename_i s' heq
      simp only [StoreTransaction, if_neg hid] at heq
      injection heq with heq
      refine ⟨rfl, rfl, ?_⟩
      rw [← heq]
      simp only [GetTransaction]
      rw [if_neg htok, assocGet_assocSet, if_pos rfl]
    · rename_i m heq
      simp only [StoreTransaction, if_neg hid] at heq
      exact Except.noConfusion heq
  · intro σ ops s code body decAPI decInit now amount description metadata r
      hfail h1 h2 hdec hst
    have hkey := makeRequest_2xx code body decAPI h1 h2
    simp only [InitiatePayment, hkey, Option.getD_some, hdec]
    rw [if_neg (by simp [hst])]
    split
    · rename_i s' heq
      have hx := congrArg Except.toOption heq
      rw [hfail] at hx
      simp [Except.toOption] at hx
    · exact ⟨rfl, rfl, rfl⟩

/-- A sample successful init response with a non-empty token. -/
def initOkResp : PaymentInitResponse :=
  { status := 1, token := "TOK", message := "", errors := [] }

/-- Witness for C6 (amended) at a concrete gateway answer and an
always-failing store. -/
theorem initiatePayment_success_amended_witness :
    GetTransaction
      (InitiatePayment memOps [] (.ok { statusCode := 200, body := "B" })
        (fun _ => none) (fun _ => some initOkResp) 5 20000 "d" []).store
      "TOK" =
      .ok { id := generateRequestID 5, token := "TOK", amount := 20000,
            status := "INIT", description := "d", metadata := [],
            transactionID := 0, cid := "", cardNumber := "", cardHash := "",
            createdAt := 5, updatedAt := 5, completedAt := none } ∧
    (InitiatePayment
      { store := fun _ _ => .error "disk full",
        get := fun _ _ => .error "disk full",
        update := fun _ _ _ => .error "disk full" } (0 : Nat)
      (.ok { statusCode := 200, body := "B" })
      (fun _ => none) (fun _ => some initOkResp) 5 20000 "d" []).err = none :=
  ⟨(initiatePayment_success_amended.1 [] 200 "B" (fun _ => none)
      (fun _ => some initOkResp) 5 20000 "d" [] initOkResp (by omega) (by omega)
      rfl rfl (by decide)).2.2,
   (initiatePayment_success_amended.2 Nat
      { store := fun _ _ => .error "disk full",
        get := fun _ _ => .error "disk full",
        update := fun _ _ _ => .error "disk full" } 0 200 "B" (fun _ => none)
      (fun _ => some initOkResp) 5 20000 "d" [] initOkResp (fun _ => rfl)
      (by omega) (by omega) rfl rfl).1⟩

/-- Counterexample for C1: calling `Client.InitiatePayment` with amount 1
(far below the minimum bound) performs the outbound HTTP request anyway
(`Do` is invoked once) and returns no error at all — in particular no
validation error: the client operation performs no input validation. -/
theorem initiatePayment_no_validation_cex :
    (1 : Int) < MinAmount ∧
    (InitiatePayment memOps [] (.ok { statusCode := 200, body := "B" })
      (fun _ => none) (fun _ => some initOkResp) 5 1 "" []).doCalls = 1 ∧
    (InitiatePayment memOps [] (.ok { statusCode := 200, body := "B" })
      (fun _ => none) (fun _ => some initOkResp) 5 1 "" []).err = none := by
  exact ⟨by decide, rfl, rfl⟩

/-- Claim C1 (amended): the amount bounds are enforced in the HTTP handler,
not in `Client.InitiatePayment`.  For every parsed init request whose amount
is below the minimum or above the maximum bound,
`ValidatePaymentInitRequest` reports a field error on `"amount"`, and
`handlePaymentInit` answers 400 without making any outbound HTTP request
(`Do` is never invoked). -/
theorem validate_amount_bounds_handler {σ : Type} (ops : StorageOps σ) (s : σ)
    (cfg : ClientConfig) (doResult : Except String HTTPResponse)
    (decodeAPIError : String → Option APIError)
    (decodeInit : String → Option PaymentInitResponse)
    (now : Int) (req : PaymentInitRequest)
    (h : req.amount < MinAmount ∨ MaxAmount < req.amount) :
    (ValidatePaymentInitRequest req).any (fun e => e.field == "amount") = true ∧
    ValidatePaymentInitRequest req ≠ [] ∧
    (handlePaymentInit ops s cfg doResult decodeAPIError decodeInit now
      (.ok req)).doCalls = 0 ∧
    (handlePaymentInit ops s cfg doResult decodeAPIError decodeInit now
      (.ok req)).status = 400 := by
  have hany : (ValidatePaymentInitRequest req).any
      (fun e => e.field == "amount") = true := by
    rcases h with h | h
    · simp [ValidatePaymentInitRequest, h]
    · have hmin : ¬ req.amount < MinAmount := by
        simp only [MinAmount, MaxAmount] at h ⊢
        omega
      have hmax : req.amount > MaxAmount := h
      simp [ValidatePaymentInitRequest, hmin, hmax]
  have hne : ValidatePaymentInitRequest req ≠ [] := by
    intro h0
    rw [h0] at hany
    simp at hany
  refine ⟨hany, hne, ?_, ?_⟩ <;>
    · simp only [handlePaymentInit]
      rw [if_neg hne]

/-- A request whose amount is below the minimum bound and whose remaining
fields are valid. -/
def reqLowAmount : PaymentInitRequest :=
  { amount := 1, callbackURL := "https://example.com/cb", description := "",
    mobile := "", factorNumber := "", validCardNumber := "" }

/-- A sample client configuration. -/
def cfgSample : ClientConfig :=
  { apiKey := "k", baseURL := "https://api.vandar.io",
    callbackURL := "https://example.com/cb" }

/-- Witness for C1 (amended) at the concrete request with amount 1. -/
theorem validate_amount_bounds_handler_witness :
    (ValidatePaymentInitRequest reqLowAmount).any
      (fun e => e.field == "amount") = true ∧
    (handlePaymentInit memOps [] cfgSample
      (.ok { statusCode := 200, body := "B" }) (fun _ => none)
      (fun _ => some initOkResp) 5 (.ok reqLowAmount)).doCalls = 0 :=
  ⟨(validate_amount_bounds_handler memOps [] cfgSample
      (.ok { statusCode := 200, body := "B" }) (fun _ => none)
      (fun _ => some initOkResp) 5 reqLowAmount (Or.inl (by decide))).1,
   (validate_amount_bounds_handler memOps [] cfgSample
      (.ok { statusCode := 200, body := "B" }) (fun _ => none)
      (fun _ => some initOkResp) 5 reqLowAmount (Or.inl (by decide))).2.2.1⟩

/-- The store obtained by storing a transaction whose token is empty. -/
def storeWithEmptyToken : MemStore := runOps [] [StoreOp.store txEmptyToken]

/-- Counterexample for C7: a transaction stored under the empty token (a
state the storage layer accepts) with status `INIT`; on a successful gateway
verification of that token the stored transaction does **not** transition —
`GetTransaction` rejects empty tokens, so the record stays `INIT` and no
`CompletedAt` is set. -/
theorem verifyPayment_empty_token_cex :
    assocGet storeWithEmptyToken "" = some txEmptyToken ∧
    txEmptyToken.status = "INIT" ∧
    (VerifyPayment memOps storeWithEmptyToken
      (.ok { statusCode := 200, body := "B" }) (fun _ => none)
      (fun _ => some verifyRespSample) 9 "").err = none ∧
    assocGet (VerifyPayment memOps storeWithEmptyToken
      (.ok { statusCode := 200, body := "B" }) (fun _ => none)
      (fun _ => some verifyRespSample) 9 "").store "" = some txEmptyToken := by
  exact ⟨rfl, rfl, rfl, rfl⟩

/-- Claim C7 (amended): for every transaction stored under a **non-empty**
token `T` with status `INIT` in a reachable store state, a successful
gateway verification of `T` transitions it to `PAID` with the enrichment
fields (`TransactionID`, `CardNumber`, `CID`) and a non-nil `CompletedAt`,
and every transaction stored under any other token is unchanged.  (For the
empty token the transition does not happen — see the counterexample.) -/
theorem verifyPayment_success_amended (s : MemStore) (T : String)
    (t : Transaction) (code : Int) (body : String)
    (decodeAPIError : String → Option APIError)
    (decodeVerify : String → Option PaymentVerifyResponse)
    (now : Int) (r : PaymentVerifyResponse)
    (hreach : ReachableStore s)
    (hmem : assocGet s T = some t) (_hstatus : t.status = "INIT")
    (hT : T ≠ "") (h1 : 200 ≤ code) (h2 : code < 300)
    (hdec : decodeVerify body = some r) (hr : r.status = 1) :
    (VerifyPayment memOps s (.ok { statusCode := code, body := body })
      decodeAPIError decodeVerify now T).err = none ∧
    (VerifyPayment memOps s (.ok { statusCode := code, body := body })
      decodeAPIError decodeVerify now T).resp = some r ∧
    assocGet (VerifyPayment memOps s (.ok { statusCode := code, body := body })
      decodeAPIError decodeVerify now T).store T =
      some { t with
        status := "PAID", transactionID := r.transID,
        cardNumber := r.cardNumber, cid := r.cid, updatedAt := now,
        completedAt := some now } ∧
    (∀ k, k ≠ T → assocGet (VerifyPayment memOps s
      (.ok { statusCode := code, body := body })
      decodeAPIError decodeVerify now T).store k = assocGet s k) := by
  obtain ⟨hid, hkeytok⟩ := storeInv_of_reachable s hreach T t hmem
  have hkey := makeRequest_2xx code body decodeAPIError h1 h2
  have hget : GetTransaction s T = .ok t := by
    simp only [GetTransaction, if_neg hT, hmem]
  have hupd : UpdateTransaction s
      { t with
        status := "PAID", transactionID := r.transID,
        cardNumber := r.cardNumber, cid := r.cid, updatedAt := now,
        completedAt := some now } now =
      .ok (assocSet s T { t with
        status := "PAID",
        transactionID := r.transID, cardNumber := r.cardNumber, cid := r.cid,
        updatedAt := now, completedAt := some now }) := by
    simp only [UpdateTransaction]
    rw [if_neg hid]
    have : assocGet s ({ t with
        status := "PAID",
        transactionID := r.transID, cardNumber := r.cardNumber, cid := r.cid,
        updatedAt := now, completedAt := some now } : Transaction).token
        = some t := by
      simpa [hkeytok] using hmem
    rw [this]
    rw [hkeytok]
  simp only [VerifyPayment, hkey, Option.getD_some, hdec]
  rw [if_neg (by simp [hr])]
  simp only [memOps, hget, hupd]
  refine ⟨trivial, trivial, ?_, ?_⟩
  · rw [assocGet_assocSet, if_pos rfl]
  · intro k hk
    rw [assocGet_assocSet, if_neg (fun hh => hk hh.symm)]

/-- Witness for C7 (amended): a transaction stored under token `"tk"`
transitions to `PAID` on a successful verification. -/
theorem verifyPayment_success_amended_witness :
    assocGet (VerifyPayment memOps [("tk", txSample)]
      (.ok { statusCode := 200, body := "B" }) (fun _ => none)
      (fun _ => some verifyRespSample) 9 "tk").store "tk" =
      some { txSample with
        status := "PAID",
        transactionID := verifyRespSample.transID,
        cardNumber := verifyRespSample.cardNumber,
        cid := verifyRespSample.cid, updatedAt := 9,
        completedAt := some 9 } :=
  (verifyPayment_success_amended [("tk", txSample)] "tk" txSample 200 "B"
    (fun _ => none) (fun _ => some verifyRespSample) 9 verifyRespSample
    ⟨[StoreOp.store txSample], rfl⟩ rfl rfl (by decide) (by omega) (by omega)
    rfl rfl).2.2.1

/-- Counterexample for C4: with limit `N = 0`, the claim says the
`(N+1)`-th — i.e. the very first — request within the window is rejected
with 429; the code's reset branch admits the first request from a fresh IP
unconditionally, so it is handled instead. -/
theorem rateLimit_zero_limit_cex :
    rlOut 0 10 "a" (fun _ => 0) 0 = .handled ∧
    rlOut 0 10 "a" (fun _ => 0) 0 ≠ .rejected 429 "Rate limit exceeded" := by
  decide

/-- Lookup at the head key. -/
theorem assocGet_cons_self {β : Type} (k : String) (v : β)
    (rest : List (String × β)) : assocGet ((k, v) :: rest) k = some v := by
  simp [assocGet]

/-- State of the limiter after `k ∈ [1, n]` requests from a single IP whose
arrival times are nondecreasing and whose total span is at most the window:
exactly one entry, with count `k` and last-seen the `k`-th arrival time. -/
theorem rlRun_single_ip (n : Nat) (window : Int) (ip : String) (t : Nat → Int)
    (hmono : ∀ i j, i ≤ j → j ≤ n → t i ≤ t j)
    (hspan : t n - t 0 ≤ window) :
    ∀ k, 1 ≤ k → k ≤ n →
      rlRun (n : Int) window ip t k = [(ip, ((k : Int), t (k - 1)))] := by
  intro k
  induction k with
  | zero => intro h1 _; exact absurd h1 (by omega)
  | succ k ih =>
    intro _ hle
    by_cases hk : k = 0
    · subst hk
      simp [rlRun, RateLimitStep, assocGet, assocSet]
    · have hk1 : 1 ≤ k := by omega
      have hkn : k ≤ n := by omega
      have hstate := ih hk1 hkn
      show (RateLimitStep (n : Int) window (rlRun (n : Int) window ip t k) ip
        (t k)).2 = _
      rw [hstate]
      have hgap : ¬ (t k - t (k - 1) > window) := by
        have hlow := hmono 0 (k - 1) (by omega) (by omega)
        have hhigh := hmono k n hkn (le_refl n)
        omega
      have hcnt : ¬ ((k : Int) + 1 > (n : Int)) := by
        have : (k : Int) + 1 ≤ (n : Int) := by exact_mod_cast hle
        omega
      simp only [RateLimitStep, assocGet_cons_self]
      rw [if_neg hgap, if_neg hcnt]
      simp only [assocSet, if_pos rfl]
      have hc : ((k + 1 : Nat) : Int) = (k : Int) + 1 := by push_cast; ring
      rw [hc]
      simp

/-- Claim C4 (amended): for a limiter with limit `N ≥ 1` and window `W`,
`N + 1` requests from the same resolved IP arriving at nondecreasing times
whose span is at most `W` have the first `N` handled and the `(N+1)`-th
rejected with 429 without invoking the handler; and from any state, a
request arriving more than `W` after the limiter last saw that IP is
handled and resets the counter to 1.  (For `N = 0` the first request is
still admitted — see the counterexample.) -/
theorem rateLimit_amended :
    (∀ (n : Nat) (window : Int) (ip : String) (t : Nat → Int),
      1 ≤ n →
      (∀ i j, i ≤ j → j ≤ n → t i ≤ t j) →
      t n - t 0 ≤ window →
      (∀ k, k < n → rlOut (n : Int) window ip t k = .handled) ∧
      rlOut (n : Int) window ip t n = .rejected 429 "Rate limit exceeded") ∧
    (∀ (limit window : Int) (st : RLState) (ip : String) (cnt last now : Int),
      assocGet st ip = some (cnt, last) → now - last > window →
      (RateLimitStep limit window st ip now).1 = .handled ∧
      assocGet (RateLimitStep limit window st ip now).2 ip = some (1, now)) := by
  constructor
  · intro n window ip t hn hmono hspan
    constructor
    · intro k hklt
      by_cases hk : k = 0
      · subst hk
        simp [rlOut, rlRun, RateLimitStep, assocGet]
      · have hstate := rlRun_single_ip n window ip t hmono hspan k
          (by omega) (by omega)
        have hgap : ¬ (t k - t (k - 1) > window) := by
          have hlow := hmono 0 (k - 1) (by omega) (by omega)
          have hhigh := hmono k n (by omega) (le_refl n)
          omega
        have hcnt : ¬ ((k : Int) + 1 > (n : Int)) := by
          have : (k : Int) + 1 ≤ (n : Int) := by exact_mod_cast hklt
          omega
        simp only [rlOut, hstate, RateLimitStep, assocGet_cons_self]
        rw [if_neg hgap, if_neg hcnt]
    · have hstate := rlRun_single_ip n window ip t hmono hspan n hn (le_refl n)
      have hgap : ¬ (t n - t (n - 1) > window) := by
        have hlow := hmono 0 (n - 1) (by omega) (by omega)
        omega
      have hcnt : (n : Int) + 1 > (n : Int) := by omega
      simp only [rlOut, hstate, RateLimitStep, assocGet_cons_self]
      rw [if_neg hgap, if_pos hcnt]
  · intro limit window st ip cnt last now hmem hgap
    simp only [RateLimitStep, hmem]
    rw [if_pos hgap]
    refine ⟨rfl, ?_⟩
    rw [assocGet_assocSet, if_pos rfl]

/-- Witness for C4 (amended): limit 1, window 10, both requests at time 0 —
the second request is rejected; and a stale entry (last seen 0, now 100,
window 10) is reset and handled. -/
theorem rateLimit_amended_witness :
    rlOut 1 10 "a" (fun _ => 0) 1 = .rejected 429 "Rate limit exceeded" ∧
    (RateLimitStep 3 10 [("a", (2, 0))] "a" 100).1 = .handled :=
  ⟨(rateLimit_amended.1 1 10 "a" (fun _ => 0) (le_refl 1)
      (fun _ _ _ _ => le_refl 0) (by decide)).2,
   (rateLimit_amended.2 3 10 [("a", (2, 0))] "a" 2 0 100 rfl (by decide)).1⟩

/-! ### Concrete sanity checks of the embedding -/

example : (StoreTransaction [] txSample).toOption = some [("tk", txSample)] := by
  decide

example : MaskCardNumber "6037-9911-2233-4455" = "************4455" := by decide

example : MaskCardNumber "123" = "****" := by decide

example : MaskCardNumber "1234" = "1234" := by decide

example : urlRegexMatch "https://example.com/callback" = true := by decide

example : urlRegexMatch "https://sub.example.co" = true := by decide

example : urlRegexMatch "ftp://example.com" = false := by decide

example : urlRegexMatch "https://x" = false := by decide

example : urlRegexMatch "https://a.bc" = false := by decide

example : urlRegexMatch "https://1.io" = false := by decide

example : urlRegexMatch "https://ab.cd" = true := by decide

example : urlRegexMatch "https://a..bc" = true := by decide

example : ValidatePaymentInitRequest
    { amount := 20000, callbackURL := "https://example.com/cb", description := "",
      mobile := "", factorNumber := "", validCardNumber := "" } = [] := by decide

example : (ValidatePaymentInitRequest
    { amount := 5, callbackURL := "https://example.com/cb", description := "",
      mobile := "", factorNumber := "", validCardNumber := "" }).length = 1 := by
  decide

example : goSplitSpace "Bearer tok" = ["Bearer", "tok"] := by decide

example : goSplitSpace "Bearer a b" = ["Bearer", "a", "b"] := by decide

example : goSplitSpace "" = [""] := by decide

example : AuthMiddleware "k" (0 : Nat) "Bearer k" = .handled 0 := by decide

example : AuthMiddleware "k" (0 : Nat) "" = .reject 401 "Unauthorized" := by decide

example : rlOut 2 100 "a" (fun i => i) 0 = .handled := by decide

example : rlOut 2 100 "a" (fun i => i) 1 = .handled := by decide

example : rlOut 2 100 "a" (fun i => i) 2 =
    .rejected 429 "Rate limit exceeded" := by decide

example : rlOut 2 100 "a" (fun i => 200 * i) 2 = .handled := by decide

example : routeRateLimit "/payments/init" = some (10, 60) := by decide

example : routeRateLimit "/payments/callback" = none := by decide
